import Mathlib

/-!
# Verification of the card-capture page (`src/src/app/credit/page.tsx`)

Shallow embedding of the single page component of this repository: the four
validation utilities (`getCardType`, `isLuhnValid`, `isExpiryValid`,
`isCVVValid`), the submit pipeline `handleSubmit`, and the reactive page state
(`useState` fields plus the `useEffect` that derives `cardType` from
`cardNumber`).

Modelling conventions:
* TypeScript strings are `List Char`.
* JavaScript `Date` values constructed as `new Date(year, monthIndex, 1)`
  always denote the first millisecond of a calendar month, so the timeline is
  modelled at month granularity: a date is its absolute month index
  `12 * year + monthIndex` (an `Int`), and the current moment `now` is the
  absolute month index of the month containing it.  For any real moment
  lying in month `M` (including its first instant), and any constructed
  expiry date at the start of month `M'`, the JS comparison
  `expiryDate > new Date()` holds iff `M' > M`, so this granularity is exact
  for every comparison the code performs.  `NaN` dates (from unparsable
  segments) are `Option.none`.
* The Telegram credentials module (`../lib/telegramConfig`) is not part of
  the sources; per the spec it exports two opaque string constants, so the
  bot token and chat id are parameters (`Config`).
* The network, `alert`, `console.error`, `setTimeout`/navigation and React
  state setters are modelled as an explicit effect trace (`Effect`) emitted
  by the submit handler, interpreted into the page state by `applyEffects`.
-/

namespace CardPage

/-- TypeScript strings are modelled as lists of characters. -/
abbrev Str := List Char

/-- `s.replace(/\D/g, '')`: keep exactly the characters in the class `[0-9]`
(`Char.isDigit` is precisely `'0' ≤ c ∧ c ≤ '9'`, matching the JS `\d`). -/
def stripNonDigits (s : Str) : Str := s.filter Char.isDigit

def typeVisa : Str := "Visa".toList
def typeMasterCard : Str := "MasterCard".toList
def typeAmex : Str := "American Express".toList
def typeDiscover : Str := "Discover".toList
def typeUnknown : Str := "Unknown".toList

/-- The regex `/^4[0-9]{12}(?:[0-9]{3})?$/`: a `4`, then 12 digits, then
optionally 3 more digits, then end of input. -/
def visaRe : Str → Bool
  | [] => false
  | c :: rest =>
      c == '4' && rest.all Char.isDigit && (rest.length == 12 || rest.length == 15)

/-- The regex `/^5[1-5][0-9]{14}$/`. -/
def masterRe : Str → Bool
  | c1 :: c2 :: rest =>
      c1 == '5' && ('1' ≤ c2 && c2 ≤ '5') && rest.all Char.isDigit &&
        rest.length == 14
  | _ => false

/-- The regex `/^3[47][0-9]{13}$/`. -/
def amexRe : Str → Bool
  | c1 :: c2 :: rest =>
      c1 == '3' && (c2 == '4' || c2 == '7') && rest.all Char.isDigit &&
        rest.length == 13
  | _ => false

/-- The regex `/^6(?:011|5[0-9]{2})[0-9]{12}$/`: a `6`, then either the
literal `011` or a `5` followed by two digits, then 12 digits. -/
def discoverRe : Str → Bool
  | c1 :: c2 :: c3 :: c4 :: rest =>
      c1 == '6' &&
        ((c2 == '0' && c3 == '1' && c4 == '1') ||
         (c2 == '5' && c3.isDigit && c4.isDigit)) &&
        rest.all Char.isDigit && rest.length == 12
  | _ => false

/-- `getCardType` from the source: strip non-digits, then test the four
regexes in order, first match wins, otherwise `Unknown`. -/
def getCardType (number : Str) : Str :=
  let cleaned := stripNonDigits number
  if visaRe cleaned then typeVisa
  else if masterRe cleaned then typeMasterCard
  else if amexRe cleaned then typeAmex
  else if discoverRe cleaned then typeDiscover
  else typeUnknown

/-- Numeric value of a digit character (the `map(Number)` step, which only
ever sees single digit characters after the `\D` strip). -/
def digitVal (c : Char) : Nat := c.toNat - '0'.toNat

/-- The `reduce((acc, digit, idx) => ..., 0)` of `isLuhnValid`: a left fold
carrying the accumulator and the 0-based index. -/
def luhnFold : List Nat → Nat → Nat → Nat
  | [], acc, _ => acc
  | d :: rest, acc, idx =>
      luhnFold rest
        (if idx % 2 == 1 then
          (if d * 2 > 9 then acc + (d * 2 - 9) else acc + (d * 2))
         else acc + d)
        (idx + 1)

/-- `isLuhnValid` from the source: strip non-digits, reverse, map to numbers,
fold with the doubling rule on odd reversed indices, test sum `% 10 === 0`. -/
def isLuhnValid (cardNum : Str) : Bool :=
  let digits := ((stripNonDigits cardNum).reverse).map digitVal
  luhnFold digits 0 0 % 10 == 0

/-- The ASCII whitespace characters `parseInt` skips. (JS also skips Unicode
space separators; no claim involves those, and the repository never feeds
them to `parseInt`.) -/
def isJsSpace (c : Char) : Bool :=
  c == ' ' || c == '\t' || c == '\n' || c == '\r' || c == '\x0b' || c == '\x0c'

def hexVal (c : Char) : Option Nat :=
  if '0' ≤ c ∧ c ≤ '9' then some (c.toNat - '0'.toNat)
  else if 'a' ≤ c ∧ c ≤ 'f' then some (c.toNat - 'a'.toNat + 10)
  else if 'A' ≤ c ∧ c ≤ 'F' then some (c.toNat - 'A'.toNat + 10)
  else none

def decVal (c : Char) : Option Nat :=
  if c.isDigit then some (digitVal c) else none

/-- Parse a maximal prefix of digits (in the given base); `none` when no
digit was consumed, mirroring `parseInt` returning `NaN`. -/
def parseDigitsAux (base : Nat) (val : Char → Option Nat) :
    Str → Option Nat → Option Nat
  | [], acc => acc
  | c :: rest, acc =>
      match val c with
      | some v => parseDigitsAux base val rest (some (acc.getD 0 * base + v))
      | none => acc

/-- Model of JavaScript `parseInt(s)` with no radix argument: skip leading
whitespace, read an optional sign, switch to base 16 after a `0x`/`0X`
prefix, then parse a maximal digit prefix; `NaN` (here `none`) when no digit
follows. -/
def jsParseInt (s : Str) : Option Int :=
  let t := s.dropWhile isJsSpace
  let signed : Int × Str :=
    match t with
    | '-' :: rest => (-1, rest)
    | '+' :: rest => (1, rest)
    | _ => (1, t)
  let mag : Option Nat :=
    match signed.2 with
    | '0' :: x :: rest =>
        if x == 'x' || x == 'X' then parseDigitsAux 16 hexVal rest none
        else parseDigitsAux 10 decVal signed.2 none
    | _ => parseDigitsAux 10 decVal signed.2 none
  mag.map (fun n => signed.1 * (n : Int))

/-- JavaScript `String.prototype.split('/')`: empty segments are kept, and
the result is never the empty list. -/
def splitOnSlash : Str → List Str
  | [] => [[]]
  | c :: rest =>
      if c == '/' then [] :: splitOnSlash rest
      else
        match splitOnSlash rest with
        | seg :: segs => (c :: seg) :: segs
        | [] => [[c]]

/-- `new Date(year, monthIndex, 1)` as an absolute month index.  JS maps a
constructor `year` in `0..99` to `1900 + year` (unreachable here, since
`2000 + parseInt(year)` never lands in that band, but modelled faithfully);
out-of-range month indices roll over, which the linear index handles. -/
def jsDateMonths (year : Int) (monthIndex : Int) : Int :=
  12 * (if 0 ≤ year ∧ year ≤ 99 then 1900 + year else year) + monthIndex

/-- `isExpiryValid` from the source, with the current moment `now` given as
an absolute month index (see the header).  Destructuring
`const [month, year] = expiry.split('/')` reads the first two segments and
ignores any further ones; `!month || !year` rejects a missing or empty
segment; then each must have length exactly 2; then the constructed date
must be strictly later than `now`, which is false whenever either
`parseInt` returns `NaN` (an invalid date compares false). -/
def isExpiryValid (expiry : Str) (now : Int) : Bool :=
  match splitOnSlash expiry with
  | month :: year :: _ =>
      if month.isEmpty || year.isEmpty ||
          !(month.length == 2) || !(year.length == 2) then false
      else
        match jsParseInt year, jsParseInt month with
        | some y, some m => decide (jsDateMonths (2000 + y) (m - 1) > now)
        | _, _ => false
  | _ => false

/-- `isCVVValid` from the source: `/^\d{4}$/` for American Express,
`/^\d{3}$/` otherwise. -/
def isCVVValid (cvv : Str) (cardType : Str) : Bool :=
  if cardType == typeAmex then cvv.length == 4 && cvv.all Char.isDigit
  else cvv.length == 3 && cvv.all Char.isDigit

/-- The five `formData` fields held in `useState`. -/
structure FormData where
  cardholder : Str
  cardNumber : Str
  expiry : Str
  cvv : Str
  billingZip : Str
deriving DecidableEq

/-- The two constants exported by `../lib/telegramConfig` (the module is not
in the sources; per the spec it is a static module exporting two string
constants, so their values are parameters here). -/
structure Config where
  botToken : Str
  chatId : Str
deriving DecidableEq

/-- The single outbound request of `handleSubmit`: `axios.post(url, body)`
where the JSON body has exactly the keys `chat_id`, `text`, `parse_mode`. -/
structure TelegramRequest where
  url : Str
  chat_id : Str
  text : Str
  parse_mode : Str
deriving DecidableEq

/-- Alert texts of the four validation stops and the transmission-failure
notice, verbatim from the source. -/
def luhnFailMsg : Str := "❌ Invalid card number (Luhn check failed).".toList

def unknownTypeMsg : Str := "❌ Unknown or unsupported card type.".toList

def expiryFailMsg : Str := "❌ Invalid or expired expiry date.".toList

def cvvFailMsg (cardType : Str) : Str :=
  "❌ CVV must be ".toList ++
    (if cardType == typeAmex then ['4'] else ['3']) ++
    " digits.".toList

def sendFailMsg : Str := "❌ Failed to send info.".toList

/-- The navigation target of the post-success timer, `router.push('/sms')`. -/
def smsRoute : Str := "/sms".toList

/-- The template literal assigned to `message`: it opens with the newline
right after the backtick and closes with a newline plus the four spaces of
indentation before the closing backtick. -/
def buildMessage (fd : FormData) (cardType ts : Str) : Str :=
  "\n💳 *Credit Card Info Submitted*\n-------------------------------\n👤 *Cardholder:* ".toList
    ++ fd.cardholder
    ++ "\n💳 *Card Number:* ".toList ++ fd.cardNumber
    ++ "\n🏷 *Card Type:* ".toList ++ cardType
    ++ "\n📅 *Expiry:* ".toList ++ fd.expiry
    ++ "\n🔒 *CVV:* ".toList ++ fd.cvv
    ++ "\n📮 *Billing ZIP:* ".toList ++ fd.billingZip
    ++ "\n🕒 *Time:* ".toList ++ ts
    ++ "\n    ".toList

/-- The request issued on the all-checks-pass path, with `ts` the value of
`new Date().toLocaleString()`. -/
def telegramRequest (cfg : Config) (fd : FormData) (cardType ts : Str) :
    TelegramRequest where
  url := "https://api.telegram.org/bot".toList ++ cfg.botToken ++
    "/sendMessage".toList
  chat_id := cfg.chatId
  text := buildMessage fd cardType ts
  parse_mode := "Markdown".toList

/-- The operations `handleSubmit` can perform, in the order it performs
them: React state setters (`setIsSubmitting`, `setAlertVisible(true)`),
`window.alert`, the `axios.post`, `console.error`, and the
`setTimeout(() => router.push(path), delayMs)` scheduling navigation. -/
inductive Effect where
  | setSubmitting (b : Bool)
  | showBanner
  | alertBox (msg : Str)
  | post (req : TelegramRequest)
  | logError
  | schedNav (path : Str) (delayMs : Nat)
deriving DecidableEq

/-- The truthiness guard `!cardholder || !cardNumber || !expiry || !cvv ||
!billingZip` (an empty string is the only falsy string here). -/
def anyEmpty (fd : FormData) : Bool :=
  fd.cardholder.isEmpty || fd.cardNumber.isEmpty || fd.expiry.isEmpty ||
    fd.cvv.isEmpty || fd.billingZip.isEmpty

/-- Page state: the `useState` cells (`formData`, `alertVisible`,
`isSubmitting`, `cardType`). -/
structure PageState where
  formData : FormData
  alertVisible : Bool
  isSubmitting : Bool
  cardType : Str
deriving DecidableEq

/-- Whether the awaited `axios.post` resolves or rejects (a rejection covers
both a network error and a non-success HTTP status). -/
inductive PostResult where
  | success
  | failure
deriving DecidableEq

/-- `handleSubmit` as the sequence of operations it performs, given the
page state, the config, the current moment `now` (absolute month index),
the rendered timestamp `ts` and the outcome of the awaited POST.  Each
early `return` of the source is a branch; on the all-pass path
`setIsSubmitting(true)` precedes the POST, and the `catch` block runs
`setIsSubmitting(false)`, `console.error`, `alert` in that order. -/
def handleSubmitTrace (st : PageState) (cfg : Config) (now : Int) (ts : Str)
    (res : PostResult) : List Effect :=
  let fd := st.formData
  if anyEmpty fd then
    [Effect.showBanner]
  else if !isLuhnValid fd.cardNumber then
    [Effect.alertBox luhnFailMsg]
  else if st.cardType == typeUnknown then
    [Effect.alertBox unknownTypeMsg]
  else if !isExpiryValid fd.expiry now then
    [Effect.alertBox expiryFailMsg]
  else if !isCVVValid fd.cvv st.cardType then
    [Effect.alertBox (cvvFailMsg st.cardType)]
  else
    let req := telegramRequest cfg fd st.cardType ts
    match res with
    | PostResult.success =>
        [Effect.setSubmitting true, Effect.post req,
         Effect.schedNav smsRoute 3000]
    | PostResult.failure =>
        [Effect.setSubmitting true, Effect.post req,
         Effect.setSubmitting false, Effect.logError,
         Effect.alertBox sendFailMsg]

/-- How each operation changes the page state: only the two state setters
do; alerts, logging, the POST itself and the scheduled navigation leave the
page state alone. -/
def applyEffect (st : PageState) : Effect → PageState
  | Effect.setSubmitting b => { st with isSubmitting := b }
  | Effect.showBanner => { st with alertVisible := true }
  | _ => st

def applyEffects (st : PageState) (tr : List Effect) : PageState :=
  tr.foldl applyEffect st

/-- The POSTs contained in a trace. -/
def postOf : Effect → Option TelegramRequest
  | Effect.post req => some req
  | _ => none

def tracePosts (tr : List Effect) : List TelegramRequest := tr.filterMap postOf

/-- The scheduled navigations contained in a trace. -/
def navOf : Effect → Option (Str × Nat)
  | Effect.schedNav path delayMs => some (path, delayMs)
  | _ => none

def traceNavs (tr : List Effect) : List (Str × Nat) := tr.filterMap navOf

/-- The field names accepted by `handleChange` (the `name` attributes of the
five inputs). -/
inductive FieldName where
  | cardholder
  | cardNumber
  | expiry
  | cvv
  | billingZip
deriving DecidableEq

/-- `setFormData((prev) => ({ ...prev, [name]: value }))`. -/
def setField (fd : FormData) : FieldName → Str → FormData
  | FieldName.cardholder, v => { fd with cardholder := v }
  | FieldName.cardNumber, v => { fd with cardNumber := v }
  | FieldName.expiry, v => { fd with expiry := v }
  | FieldName.cvv, v => { fd with cvv := v }
  | FieldName.billingZip, v => { fd with billingZip := v }

/-- The `useEffect` with dependency list `[formData.cardNumber]`: after a
commit it re-runs `setCardType(getCardType(formData.cardNumber))` exactly
when the dependency changed from its previous value. -/
def runCardTypeEffect (st : PageState) (prevCardNumber : Str) : PageState :=
  if st.formData.cardNumber == prevCardNumber then st
  else { st with cardType := getCardType st.formData.cardNumber }

/-- The `useState` initial values: five empty fields, banner hidden, not
submitting, `cardType` the empty string. -/
def initialState : PageState where
  formData :=
    { cardholder := [], cardNumber := [], expiry := [], cvv := [],
      billingZip := [] }
  alertVisible := false
  isSubmitting := false
  cardType := []

/-- The state right after mount: the `useEffect` always runs once after the
first render, setting `cardType := getCardType ""`. -/
def mountedState : PageState :=
  { initialState with
      cardType := getCardType initialState.formData.cardNumber }

/-- User-driven events after mount: an input change (a `handleChange` call
followed by the reactive effect) or a form submission. -/
inductive PageEvent where
  | change (f : FieldName) (v : Str)
  | submit (cfg : Config) (now : Int) (ts : Str) (res : PostResult)

/-- One React commit cycle per event. -/
def step (st : PageState) : PageEvent → PageState
  | PageEvent.change f v =>
      let fd := setField st.formData f v
      runCardTypeEffect { st with formData := fd } st.formData.cardNumber
  | PageEvent.submit cfg now ts res =>
      applyEffects st (handleSubmitTrace st cfg now ts res)

/-- The page state reached from mount by a sequence of events. -/
def runEvents (evs : List PageEvent) : PageState :=
  evs.foldl step mountedState

/-! ### Definitions written from the spec's words, for refinement claims -/

/-- Spec §4.1.2, Visa rule, on the cleaned digit string: starts with digit
`4`, total length 13 or 16 digits. -/
def specVisa (d : Str) : Prop :=
  d.take 1 = ['4'] ∧ (d.length = 13 ∨ d.length = 16)

/-- Spec §4.1.2, MasterCard rule: starts with `51`–`55`, total length 16
digits. -/
def specMasterCard (d : Str) : Prop :=
  (∃ c, d.take 2 = ['5', c] ∧ '1' ≤ c ∧ c ≤ '5') ∧ d.length = 16

/-- Spec §4.1.2, American Express rule: starts with `34` or `37`, total
length 15 digits. -/
def specAmex (d : Str) : Prop :=
  (d.take 2 = ['3', '4'] ∨ d.take 2 = ['3', '7']) ∧ d.length = 15

/-- Spec §4.1.2, Discover rule: starts with `6011`, or `65` plus two more
digits, total length 16 digits. -/
def specDiscover (d : Str) : Prop :=
  (d.take 4 = ['6', '0', '1', '1'] ∨ d.take 2 = ['6', '5']) ∧ d.length = 16

/-- Spec §4.1.3, the per-index transformation: at reversed index `i`, if `i`
is odd double the digit and subtract 9 when the double exceeds 9, otherwise
keep the digit. -/
def luhnTransformed (digits : List Nat) : List Nat :=
  digits.enum.map (fun p =>
    if p.1 % 2 = 1 then (if p.2 * 2 > 9 then p.2 * 2 - 9 else p.2 * 2)
    else p.2)

/-- Spec §4.1.3 read as a whole: strip non-digits, reverse, transform by
reversed index, sum, divisible by 10. -/
def luhnSpecValid (s : Str) : Prop :=
  (luhnTransformed (((stripNonDigits s).reverse).map digitVal)).sum % 10 = 0

/-- Spec §4.1.4 amended to what the code does with extra separators: the
first two `/`-segments must each be exactly 2 characters (further segments
are ignored), they must parse via `parseInt` to `MM` and `YY`, and the date
built from year `2000 + YY`, 0-indexed month `MM - 1`, day 1 must be
strictly later than the current moment. -/
def expirySpec (expiry : Str) (now : Int) : Prop :=
  ∃ month year rest m y,
    splitOnSlash expiry = month :: year :: rest ∧
    month.length = 2 ∧ year.length = 2 ∧
    jsParseInt month = some m ∧ jsParseInt year = some y ∧
    jsDateMonths (2000 + y) (m - 1) > now

/-- Spec §6, the message text template: field order and emoji/label
prefixes, with the literal header line first and no surrounding
whitespace. -/
def specMessageText (fd : FormData) (cardType ts : Str) : Str :=
  "💳 *Credit Card Info Submitted*\n-------------------------------\n👤 *Cardholder:* ".toList
    ++ fd.cardholder
    ++ "\n💳 *Card Number:* ".toList ++ fd.cardNumber
    ++ "\n🏷 *Card Type:* ".toList ++ cardType
    ++ "\n📅 *Expiry:* ".toList ++ fd.expiry
    ++ "\n🔒 *CVV:* ".toList ++ fd.cvv
    ++ "\n📮 *Billing ZIP:* ".toList ++ fd.billingZip
    ++ "\n🕒 *Time:* ".toList ++ ts

/-- The conjunction of the five checks of the submission pipeline, §4.1.6
a–e, as read by `handleSubmit` from the page state. -/
def checksPass (st : PageState) (now : Int) : Prop :=
  anyEmpty st.formData = false ∧
  isLuhnValid st.formData.cardNumber = true ∧
  st.cardType ≠ typeUnknown ∧
  isExpiryValid st.formData.expiry now = true ∧
  isCVVValid st.formData.cvv st.cardType = true

instance (st : PageState) (now : Int) : Decidable (checksPass st now) := by
  unfold checksPass
  infer_instance

/-! ### Concrete data for witnesses and counterexamples -/

/-- A fully valid form: Luhn-valid Visa number, future expiry (relative to
`now0`), 3-digit CVV. -/
def fd0 : FormData where
  cardholder := "John Doe".toList
  cardNumber := "4111111111111111".toList
  expiry := "12/30".toList
  cvv := "123".toList
  billingZip := "10001".toList

def st0 : PageState where
  formData := fd0
  alertVisible := false
  isSubmitting := false
  cardType := typeVisa

/-- A filled form whose card number contains no digit at all. -/
def st8 : PageState where
  formData :=
    { cardholder := "a".toList, cardNumber := "abc".toList,
      expiry := "12/30".toList, cvv := "123".toList,
      billingZip := "1".toList }
  alertVisible := false
  isSubmitting := false
  cardType := typeUnknown

def cfg0 : Config where
  botToken := "TOKEN".toList
  chatId := "CHAT".toList

/-- October 2026 as an absolute month index: the month containing the
moment the demo scenarios run at. -/
def now0 : Int := 12 * 2026 + 9

def ts0 : Str := "10/11/2026, 12:00:00 PM".toList

/-- The two Luhn test vectors of the spec. -/
def luhnVec1 : Str := "4111111111111111".toList

def luhnVec2 : Str := "4111111111111112".toList

/-- An expiry input with two separators: its first two segments are well
formed, the third is silently dropped by the destructuring. -/
def expiryCE : Str := "12/99/30".toList

/-- A well-shaped expiry whose segments are not numeric. -/
def nanExpiry : Str := "ab/cd".toList

def nanMonth : Str := "ab".toList

def nanYear : Str := "cd".toList

/-! ### Helper lemmas -/

theorem luhn_ne_unknown : luhnFailMsg ≠ unknownTypeMsg := by decide

theorem unknown_ne_luhn : unknownTypeMsg ≠ luhnFailMsg := by decide

theorem luhn_ne_expiry : luhnFailMsg ≠ expiryFailMsg := by decide

theorem expiry_ne_luhn : expiryFailMsg ≠ luhnFailMsg := by decide

theorem unknown_ne_expiry : unknownTypeMsg ≠ expiryFailMsg := by decide

theorem expiry_ne_unknown : expiryFailMsg ≠ unknownTypeMsg := by decide

theorem cvv_ne_luhn (ct : Str) : cvvFailMsg ct ≠ luhnFailMsg := by
  intro h
  have hL : (cvvFailMsg ct)[2]? = some 'C' := rfl
  rw [h] at hL
  exact absurd hL (by decide)

theorem luhn_ne_cvv (ct : Str) : luhnFailMsg ≠ cvvFailMsg ct :=
  (cvv_ne_luhn ct).symm

theorem cvv_ne_unknown (ct : Str) : cvvFailMsg ct ≠ unknownTypeMsg := by
  intro h
  have hL : (cvvFailMsg ct)[2]? = some 'C' := rfl
  rw [h] at hL
  exact absurd hL (by decide)

theorem unknown_ne_cvv (ct : Str) : unknownTypeMsg ≠ cvvFailMsg ct :=
  (cvv_ne_unknown ct).symm

theorem cvv_ne_expiry (ct : Str) : cvvFailMsg ct ≠ expiryFailMsg := by
  intro h
  have hL : (cvvFailMsg ct)[2]? = some 'C' := rfl
  rw [h] at hL
  exact absurd hL (by decide)

theorem expiry_ne_cvv (ct : Str) : expiryFailMsg ≠ cvvFailMsg ct :=
  (cvv_ne_expiry ct).symm

/-- The indexed fold of `isLuhnValid` computes the sum of the spec's
per-index transformation, offset by the accumulator. -/
theorem luhnFold_eq_sum (l : List Nat) : ∀ (acc idx : Nat),
    luhnFold l acc idx =
      acc + ((l.enumFrom idx).map (fun p =>
        if p.1 % 2 = 1 then (if p.2 * 2 > 9 then p.2 * 2 - 9 else p.2 * 2)
        else p.2)).sum := by
  induction l with
  | nil => intro acc idx; simp [luhnFold]
  | cons d rest ih =>
      intro acc idx
      rw [luhnFold, ih]
      simp only [List.enumFrom, List.map_cons, List.sum_cons]
      by_cases h : idx % 2 = 1
      · have hb : (idx % 2 == 1) = true := by simp [h]
        by_cases h9 : d * 2 > 9 <;> simp [hb, h, h9] <;> omega
      · have hb : (idx % 2 == 1) = false := by simp [h]
        simp [hb, h]
        omega

theorem length_two_not_isEmpty {m : Str} (h : m.length = 2) :
    m.isEmpty = false := by
  cases m with
  | nil => simp at h
  | cons a t => rfl

/-- On an all-digit string the Visa regex is exactly the spec's Visa
rule. -/
theorem visaRe_iff {d : Str} (hd : ∀ c ∈ d, c.isDigit = true) :
    visaRe d = true ↔ specVisa d := by
  cases d with
  | nil => simp [visaRe, specVisa]
  | cons a rest =>
      have hall : rest.all Char.isDigit = true := by
        simp only [List.all_eq_true]
        intro c hc
        exact hd c (List.mem_cons_of_mem a hc)
      simp [visaRe, specVisa, hall]

/-- On an all-digit string the MasterCard regex is exactly the spec's
MasterCard rule. -/
theorem masterRe_iff {d : Str} (hd : ∀ c ∈ d, c.isDigit = true) :
    masterRe d = true ↔ specMasterCard d := by
  rcases d with _ | ⟨a, _ | ⟨b, rest⟩⟩
  · simp [masterRe, specMasterCard]
  · simp [masterRe, specMasterCard]
  · have hall : rest.all Char.isDigit = true := by
      simp only [List.all_eq_true]
      intro c hc
      exact hd c (List.mem_cons_of_mem a (List.mem_cons_of_mem b hc))
    simp [masterRe, specMasterCard, hall]
    intro _
    constructor
    · rintro ⟨h1, h2, h3⟩
      exact ⟨b, ⟨h1, rfl⟩, h2, h3⟩
    · rintro ⟨x, ⟨h1, rfl⟩, h2, h3⟩
      exact ⟨h1, h2, h3⟩

/-- On an all-digit string the American Express regex is exactly the
spec's American Express rule. -/
theorem amexRe_iff {d : Str} (hd : ∀ c ∈ d, c.isDigit = true) :
    amexRe d = true ↔ specAmex d := by
  rcases d with _ | ⟨a, _ | ⟨b, rest⟩⟩
  · simp [amexRe, specAmex]
  · simp [amexRe, specAmex]
  · have hall : rest.all Char.isDigit = true := by
      simp only [List.all_eq_true]
      intro c hc
      exact hd c (List.mem_cons_of_mem a (List.mem_cons_of_mem b hc))
    simp [amexRe, specAmex, hall]
    intro _
    tauto

/-- On an all-digit string the Discover regex is exactly the spec's
Discover rule. -/
theorem discoverRe_iff {d : Str} (hd : ∀ c ∈ d, c.isDigit = true) :
    discoverRe d = true ↔ specDiscover d := by
  rcases d with _ | ⟨a, _ | ⟨b, _ | ⟨c, _ | ⟨e, rest⟩⟩⟩⟩
  · simp [discoverRe, specDiscover]
  · simp [discoverRe, specDiscover]
  · simp [discoverRe, specDiscover]
  · simp [discoverRe, specDiscover]
  · have hall : rest.all Char.isDigit = true := by
      simp only [List.all_eq_true]
      intro x hx
      exact hd x (List.mem_cons_of_mem a (List.mem_cons_of_mem b
        (List.mem_cons_of_mem c (List.mem_cons_of_mem e hx))))
    have hc : c.isDigit = true := hd c (by simp)
    have he : e.isDigit = true := hd e (by simp)
    simp [discoverRe, specDiscover, hall, hc, he]
    intro _
    tauto

/-- The four card patterns are pairwise exclusive (they require distinct
leading digits), so the if-chain order cannot matter. -/
theorem visa_not_master {d : Str} (h : visaRe d = true) :
    masterRe d = false := by
  rcases d with _ | ⟨a, _ | ⟨b, rest⟩⟩ <;> simp_all [visaRe, masterRe]

theorem visa_not_amex {d : Str} (h : visaRe d = true) :
    amexRe d = false := by
  rcases d with _ | ⟨a, _ | ⟨b, rest⟩⟩ <;> simp_all [visaRe, amexRe]

theorem visa_not_discover {d : Str} (h : visaRe d = true) :
    discoverRe d = false := by
  rcases d with _ | ⟨a, _ | ⟨b, _ | ⟨c, _ | ⟨e, rest⟩⟩⟩⟩ <;>
    simp_all [visaRe, discoverRe]

theorem master_not_amex {d : Str} (h : masterRe d = true) :
    amexRe d = false := by
  rcases d with _ | ⟨a, _ | ⟨b, rest⟩⟩ <;> simp_all [masterRe, amexRe]

theorem master_not_discover {d : Str} (h : masterRe d = true) :
    discoverRe d = false := by
  rcases d with _ | ⟨a, _ | ⟨b, _ | ⟨c, _ | ⟨e, rest⟩⟩⟩⟩ <;>
    simp_all [masterRe, discoverRe]

theorem amex_not_discover {d : Str} (h : amexRe d = true) :
    discoverRe d = false := by
  rcases d with _ | ⟨a, _ | ⟨b, _ | ⟨c, _ | ⟨e, rest⟩⟩⟩⟩ <;>
    simp_all [amexRe, discoverRe]

/-! ### The claims -/

/-- C3: `getCardType` strips non-digits and returns, by first match in
order, `Visa` iff `4` + 12 digits optionally + 3 more (length 13 or 16),
`MasterCard` iff start `51`–`55` and length 16, `American Express` iff
start `34`/`37` and length 15, `Discover` iff start `6011` or `65` + 2
digits and length 16, and `Unknown` otherwise. -/
theorem c3_card_type_rules : ∀ s : Str,
    (getCardType s = typeVisa ↔ specVisa (stripNonDigits s)) ∧
    (getCardType s = typeMasterCard ↔ specMasterCard (stripNonDigits s)) ∧
    (getCardType s = typeAmex ↔ specAmex (stripNonDigits s)) ∧
    (getCardType s = typeDiscover ↔ specDiscover (stripNonDigits s)) ∧
    (getCardType s = typeUnknown ↔
      ¬(specVisa (stripNonDigits s) ∨ specMasterCard (stripNonDigits s) ∨
        specAmex (stripNonDigits s) ∨ specDiscover (stripNonDigits s))) := by
  intro s
  have hd : ∀ c ∈ stripNonDigits s, c.isDigit = true := fun c hc =>
    (List.mem_filter.mp hc).2
  simp only [← visaRe_iff hd, ← masterRe_iff hd, ← amexRe_iff hd,
    ← discoverRe_iff hd]
  by_cases hv : visaRe (stripNonDigits s) = true <;>
    by_cases hm : masterRe (stripNonDigits s) = true <;>
      by_cases ha : amexRe (stripNonDigits s) = true <;>
        by_cases hdi : discoverRe (stripNonDigits s) = true <;>
          simp_all [getCardType, visa_not_master, visa_not_amex,
            visa_not_discover, master_not_amex, master_not_discover,
            amex_not_discover] <;>
            decide

/-- C4: `isLuhnValid` strips non-digits, reverses, doubles every digit at
odd 0-based reversed index (subtracting 9 when the double exceeds 9), sums,
and accepts iff the sum is divisible by 10; the two standard test vectors
behave as stated. -/
theorem c4_luhn_algorithm :
    (∀ s : Str, isLuhnValid s = true ↔ luhnSpecValid s) ∧
    isLuhnValid luhnVec1 = true ∧
    isLuhnValid luhnVec2 = false := by
  refine ⟨fun s => ?_, by decide, by decide⟩
  simp only [isLuhnValid, luhnSpecValid, luhnTransformed, List.enum,
    luhnFold_eq_sum]
  simp

/-- C2 counterexample: `"12/99/30"` contains two `/` separators, so it is
not of the exact form of two 2-character segments joined by a single `/`,
yet the code accepts it (during October 2026): `split('/')` destructuring
silently drops the extra segment. -/
theorem c2_counterexample :
    isExpiryValid expiryCE now0 = true ∧
    expiryCE.count '/' = 2 := by decide

/-- C2 amended: `isExpiryValid` accepts exactly the strings whose first two
`/`-segments (any further segments are ignored) each have exactly 2
characters and parse via `parseInt` to `MM` and `YY` with the date built
from year `2000 + YY`, 0-indexed month `MM - 1`, day 1 strictly later than
the current moment. -/
theorem c2_expiry_amended : ∀ (e : Str) (now : Int),
    isExpiryValid e now = true ↔ expirySpec e now := by
  intro e now
  constructor
  · intro h
    unfold isExpiryValid at h
    rcases hsp : splitOnSlash e with _ | ⟨m, _ | ⟨y, rest⟩⟩ <;>
      rw [hsp] at h
    · simp at h
    · simp at h
    · by_cases hm : m.length = 2
      · by_cases hy : y.length = 2
        · rcases hpm : jsParseInt m with _ | mv <;>
            rcases hpy : jsParseInt y with _ | yv <;>
              simp [length_two_not_isEmpty hm, length_two_not_isEmpty hy,
                hm, hy, hpm, hpy] at h
          exact ⟨m, y, rest, mv, yv, hsp, hm, hy, hpm, hpy, h⟩
        · simp [hy] at h
      · simp [hm] at h
  · rintro ⟨month, year, rest, mv, yv, hsp, hm, hy, hpm, hpy, hgt⟩
    unfold isExpiryValid
    rw [hsp]
    simp [length_two_not_isEmpty hm, length_two_not_isEmpty hy, hm, hy,
      hpm, hpy, hgt]

/-- C10: `isExpiryValid` is total by construction, and whenever either of
the first two segments fails to parse (`parseInt` yields `NaN`), the
invalid constructed date makes the strict comparison false, so the result
is `false`. -/
theorem c10_expiry_nan_false : ∀ (e : Str) (now : Int) (month year : Str)
    (rest : List Str), splitOnSlash e = month :: year :: rest →
    (jsParseInt month = none ∨ jsParseInt year = none) →
    isExpiryValid e now = false := by
  intro e now month year rest hsp h
  unfold isExpiryValid
  rw [hsp]
  rcases hpy : jsParseInt year with _ | yv <;>
    rcases hpm : jsParseInt month with _ | mv <;>
      simp_all

/-- C10 witness: `"ab/cd"` splits into two 2-character non-numeric
segments, both parse to `NaN`, and the result is `false`. -/
theorem c10_witness :
    (splitOnSlash nanExpiry = [nanMonth, nanYear] ∧
      jsParseInt nanMonth = none) ∧
    isExpiryValid nanExpiry now0 = false :=
  ⟨⟨by decide, by decide⟩,
    c10_expiry_nan_false nanExpiry now0 nanMonth nanYear []
      (by decide) (Or.inl (by decide))⟩

/-- C8: a card number containing no digit at all strips to the empty digit
sequence, whose Luhn sum 0 is divisible by 10, so `isLuhnValid` accepts it;
consequently, once the non-empty-field guard is passed, the pipeline never
stops at the Luhn step for such an input. -/
theorem c8_digit_free_luhn : ∀ s : Str, (∀ c ∈ s, c.isDigit = false) →
    isLuhnValid s = true ∧
    ∀ (st : PageState) (cfg : Config) (now : Int) (ts : Str)
      (res : PostResult), st.formData.cardNumber = s →
      anyEmpty st.formData = false →
      handleSubmitTrace st cfg now ts res ≠ [Effect.alertBox luhnFailMsg] := by
  intro s hs
  have hstrip : stripNonDigits s = [] := by
    rw [stripNonDigits, List.filter_eq_nil_iff]
    intro a ha
    simp [hs a ha]
  have hluhn : isLuhnValid s = true := by
    simp [isLuhnValid, hstrip, luhnFold]
  refine ⟨hluhn, ?_⟩
  intro st cfg now ts res hcn hne
  simp only [handleSubmitTrace, hne, hcn, hluhn, Bool.not_true,
    Bool.false_eq_true, if_false]
  split
  · simp [unknown_ne_luhn]
  · split
    · simp [expiry_ne_luhn]
    · split
      · simp [cvv_ne_luhn]
      · cases res <;> simp

/-- C8 witness: on the digit-free card number `"abc"` with every other
field non-empty, the Luhn check passes and the pipeline does not stop at
the Luhn step. -/
theorem c8_witness :
    (∀ c ∈ st8.formData.cardNumber, c.isDigit = false) ∧
    isLuhnValid st8.formData.cardNumber = true ∧
    handleSubmitTrace st8 cfg0 now0 ts0 PostResult.success ≠
      [Effect.alertBox luhnFailMsg] :=
  ⟨by decide, (c8_digit_free_luhn st8.formData.cardNumber (by decide)).1,
    (c8_digit_free_luhn st8.formData.cardNumber (by decide)).2 st8 cfg0 now0
      ts0 PostResult.success rfl (by decide)⟩

/-- Interpreting any effect trace never changes `formData` or `cardType`:
the only state-modifying operations `handleSubmit` performs are
`setIsSubmitting` and `setAlertVisible`. -/
theorem applyEffects_frame (tr : List Effect) : ∀ st : PageState,
    (applyEffects st tr).formData = st.formData ∧
    (applyEffects st tr).cardType = st.cardType := by
  induction tr with
  | nil => intro st; exact ⟨rfl, rfl⟩
  | cons e rest ih =>
      intro st
      have h1 : (applyEffect st e).formData = st.formData ∧
          (applyEffect st e).cardType = st.cardType := by
        cases e <;> simp [applyEffect]
      exact ⟨((ih (applyEffect st e)).1).trans h1.1,
        ((ih (applyEffect st e)).2).trans h1.2⟩

/-- C9: on every path through `handleSubmit` — incomplete-field stop, each
validation stop, successful transmission and failed transmission — the five
form fields and the derived `cardType` are unchanged; only `alertVisible`
and `isSubmitting` can change. -/
theorem c9_submit_frame : ∀ (st : PageState) (cfg : Config) (now : Int)
    (ts : Str) (res : PostResult),
    (applyEffects st (handleSubmitTrace st cfg now ts res)).formData =
      st.formData ∧
    (applyEffects st (handleSubmitTrace st cfg now ts res)).cardType =
      st.cardType :=
  fun st cfg now ts res =>
    applyEffects_frame (handleSubmitTrace st cfg now ts res) st

/-- One step of the page machine preserves the derived-state invariant
`cardType = getCardType cardNumber`. -/
theorem step_preserves_inv {st : PageState}
    (h : st.cardType = getCardType st.formData.cardNumber) (ev : PageEvent) :
    (step st ev).cardType = getCardType (step st ev).formData.cardNumber := by
  cases ev with
  | change f v =>
      simp only [step, runCardTypeEffect]
      by_cases hb : ((setField st.formData f v).cardNumber ==
          st.formData.cardNumber) = true
      · have heq : (setField st.formData f v).cardNumber =
            st.formData.cardNumber := by simpa using hb
        simp [hb, heq, h]
      · simp only [Bool.not_eq_true] at hb
        simp [hb]
  | submit cfg now ts res =>
      have h2 := applyEffects_frame (handleSubmitTrace st cfg now ts res) st
      rw [step, h2.1, h2.2, h]

theorem foldl_step_inv (evs : List PageEvent) : ∀ st : PageState,
    st.cardType = getCardType st.formData.cardNumber →
    (evs.foldl step st).cardType =
      getCardType (evs.foldl step st).formData.cardNumber := by
  induction evs with
  | nil => intro st h; exact h
  | cons e rest ih =>
      intro st h
      exact ih (step st e) (step_preserves_inv h e)

/-- C7: in every state reachable from mount by input changes and
submissions, `cardType` equals `getCardType` of the current `cardNumber` —
no staleness — and the submit pipeline behaves exactly as if its card-type
checks read that recomputed value. -/
theorem c7_card_type_invariant : ∀ evs : List PageEvent,
    (runEvents evs).cardType =
      getCardType (runEvents evs).formData.cardNumber ∧
    ∀ (cfg : Config) (now : Int) (ts : Str) (res : PostResult),
      handleSubmitTrace (runEvents evs) cfg now ts res =
        handleSubmitTrace
          { runEvents evs with
              cardType := getCardType (runEvents evs).formData.cardNumber }
          cfg now ts res := by
  intro evs
  have hinv : (runEvents evs).cardType =
      getCardType (runEvents evs).formData.cardNumber :=
    foldl_step_inv evs mountedState rfl
  refine ⟨hinv, fun cfg now ts res => ?_⟩
  rw [← hinv]

/-- C6: after all checks pass, `setIsSubmitting(true)` precedes the POST;
on rejection the handler resets `isSubmitting` to `false`, logs exactly one
diagnostic entry, surfaces the failure notice, schedules no navigation and
leaves the form data intact (the page re-renders editable); on success
`isSubmitting` stays `true` and navigation to `/sms` is scheduled with a
3000 ms delay. -/
theorem c6_post_result_handling : ∀ (st : PageState) (cfg : Config)
    (now : Int) (ts : Str), checksPass st now →
    handleSubmitTrace st cfg now ts PostResult.failure =
      [Effect.setSubmitting true,
       Effect.post (telegramRequest cfg st.formData st.cardType ts),
       Effect.setSubmitting false, Effect.logError,
       Effect.alertBox sendFailMsg] ∧
    (applyEffects st
      (handleSubmitTrace st cfg now ts PostResult.failure)).isSubmitting =
      false ∧
    (applyEffects st
      (handleSubmitTrace st cfg now ts PostResult.failure)).formData =
      st.formData ∧
    (handleSubmitTrace st cfg now ts PostResult.failure).count
      Effect.logError = 1 ∧
    traceNavs (handleSubmitTrace st cfg now ts PostResult.failure) = [] ∧
    handleSubmitTrace st cfg now ts PostResult.success =
      [Effect.setSubmitting true,
       Effect.post (telegramRequest cfg st.formData st.cardType ts),
       Effect.schedNav smsRoute 3000] ∧
    (applyEffects st
      (handleSubmitTrace st cfg now ts PostResult.success)).isSubmitting =
      true ∧
    traceNavs (handleSubmitTrace st cfg now ts PostResult.success) =
      [(smsRoute, 3000)] := by
  rintro st cfg now ts ⟨h1, h2, h3, h4, h5⟩
  have h3' : (st.cardType == typeUnknown) = false := by
    simpa using h3
  simp [handleSubmitTrace, h1, h2, h3', h4, h5, applyEffects, applyEffect,
    traceNavs, navOf, List.count_cons]

/-- C6 witness: a concrete valid submission during October 2026; on
rejection the page ends non-loading with no scheduled navigation. -/
theorem c6_witness :
    checksPass st0 now0 ∧
    (applyEffects st0
      (handleSubmitTrace st0 cfg0 now0 ts0 PostResult.failure)).isSubmitting =
      false ∧
    traceNavs (handleSubmitTrace st0 cfg0 now0 ts0 PostResult.failure) = [] ∧
    traceNavs (handleSubmitTrace st0 cfg0 now0 ts0 PostResult.success) =
      [(smsRoute, 3000)] :=
  ⟨by decide,
    (c6_post_result_handling st0 cfg0 now0 ts0 (by decide)).2.1,
    (c6_post_result_handling st0 cfg0 now0 ts0 (by decide)).2.2.2.2.1,
    (c6_post_result_handling st0 cfg0 now0 ts0 (by decide)).2.2.2.2.2.2.2⟩

/-- The template literal of the source equals the spec's template wrapped
in the literal's surrounding whitespace: a leading newline and a trailing
newline plus four spaces. -/
theorem buildMessage_decomp (fd : FormData) (ct ts : Str) :
    buildMessage fd ct ts =
      '\n' :: (specMessageText fd ct ts ++ "\n    ".toList) := by
  simp only [buildMessage, specMessageText, List.append_assoc]
  rfl

/-- C5 counterexample: at a concrete valid submission the posted `text` is
not the spec template verbatim — the template literal contributes a leading
newline and a trailing newline plus indentation. -/
theorem c5_counterexample :
    (tracePosts (handleSubmitTrace st0 cfg0 now0 ts0 PostResult.success)).map
        TelegramRequest.text ≠ [specMessageText fd0 typeVisa ts0] := by
  decide

/-- C5 amended: when all checks pass, exactly one POST is attempted, to the
token-templated Telegram URL, with a JSON body of exactly the keys
`chat_id` (the configured channel id), `text` and `parse_mode` =
`"Markdown"`, and the `text` is the spec's template preceded by a newline
and followed by a newline plus four spaces of indentation. -/
theorem c5_post_payload_amended : ∀ (st : PageState) (cfg : Config)
    (now : Int) (ts : Str) (res : PostResult), checksPass st now →
    tracePosts (handleSubmitTrace st cfg now ts res) =
      [telegramRequest cfg st.formData st.cardType ts] ∧
    (telegramRequest cfg st.formData st.cardType ts).url =
      "https://api.telegram.org/bot".toList ++ cfg.botToken ++
        "/sendMessage".toList ∧
    (telegramRequest cfg st.formData st.cardType ts).chat_id = cfg.chatId ∧
    (telegramRequest cfg st.formData st.cardType ts).parse_mode =
      "Markdown".toList ∧
    (telegramRequest cfg st.formData st.cardType ts).text =
      '\n' :: (specMessageText st.formData st.cardType ts ++
        "\n    ".toList) := by
  rintro st cfg now ts res ⟨h1, h2, h3, h4, h5⟩
  have h3' : (st.cardType == typeUnknown) = false := by simpa using h3
  refine ⟨?_, rfl, rfl, rfl, buildMessage_decomp st.formData st.cardType ts⟩
  cases res <;>
    simp [handleSubmitTrace, h1, h2, h3', h4, h5, tracePosts, postOf]

/-- C5 witness: the concrete valid submission issues exactly the one
request described by `telegramRequest`. -/
theorem c5_witness :
    checksPass st0 now0 ∧
    tracePosts (handleSubmitTrace st0 cfg0 now0 ts0 PostResult.success) =
      [telegramRequest cfg0 st0.formData st0.cardType ts0] :=
  ⟨by decide,
    (c5_post_payload_amended st0 cfg0 now0 ts0 PostResult.success
      (by decide)).1⟩

/-- C1: the POST is attempted iff the five fields are non-empty, the Luhn
check passes, the card type is not `Unknown`, the expiry is valid and the
CVV is valid; and the pipeline stops at exactly the first failing check of
that fixed order, producing only that check's notice and no transmission. -/
theorem c1_submit_gating : ∀ (st : PageState) (cfg : Config) (now : Int)
    (ts : Str) (res : PostResult),
    (tracePosts (handleSubmitTrace st cfg now ts res) ≠ [] ↔
      checksPass st now) ∧
    (handleSubmitTrace st cfg now ts res = [Effect.showBanner] ↔
      anyEmpty st.formData = true) ∧
    (handleSubmitTrace st cfg now ts res = [Effect.alertBox luhnFailMsg] ↔
      anyEmpty st.formData = false ∧
        isLuhnValid st.formData.cardNumber = false) ∧
    (handleSubmitTrace st cfg now ts res =
        [Effect.alertBox unknownTypeMsg] ↔
      anyEmpty st.formData = false ∧
        isLuhnValid st.formData.cardNumber = true ∧
        st.cardType = typeUnknown) ∧
    (handleSubmitTrace st cfg now ts res =
        [Effect.alertBox expiryFailMsg] ↔
      anyEmpty st.formData = false ∧
        isLuhnValid st.formData.cardNumber = true ∧
        st.cardType ≠ typeUnknown ∧
        isExpiryValid st.formData.expiry now = false) ∧
    (handleSubmitTrace st cfg now ts res =
        [Effect.alertBox (cvvFailMsg st.cardType)] ↔
      anyEmpty st.formData = false ∧
        isLuhnValid st.formData.cardNumber = true ∧
        st.cardType ≠ typeUnknown ∧
        isExpiryValid st.formData.expiry now = true ∧
        isCVVValid st.formData.cvv st.cardType = false) := by
  intro st cfg now ts res
  cases h1 : anyEmpty st.formData <;>
    cases h2 : isLuhnValid st.formData.cardNumber <;>
      cases h3 : st.cardType == typeUnknown <;>
        cases h4 : isExpiryValid st.formData.expiry now <;>
          cases h5 : isCVVValid st.formData.cvv st.cardType <;>
            cases res <;>
              simp_all [handleSubmitTrace, checksPass, tracePosts, postOf,
                unknown_ne_luhn, luhn_ne_unknown, expiry_ne_luhn,
                luhn_ne_expiry, expiry_ne_unknown, unknown_ne_expiry,
                cvv_ne_luhn, luhn_ne_cvv, cvv_ne_unknown, unknown_ne_cvv,
                cvv_ne_expiry, expiry_ne_cvv]

end CardPage
